import Mathlib

/-!
Shallow embedding of the Youtube-Rag repository, used to settle the frozen
claims about the retriever, the RAG orchestrator, the chunker, the worker
task runner and the chat repositories.

Conventions: machine floats of the Python source are modelled as rationals,
timestamps as naturals, SQL NULL as Option, and database tables as lists of
row structures.  External black boxes (pgvector distances, ts_rank values,
the LLM summarizer, the sentence encoder) are inputs: a chunk row carries the
distance and rank values the database extensions would derive for the query
at hand, and summarization is an arbitrary function parameter.
-/

namespace YoutubeRag

/-! ## Retriever (src/backend/services/retriever.py, RetrieverService.search_hybrid) -/

/-- A row of the chunks table as seen by one retrieval query.
For the query under consideration, the pgvector extension would compute the
distance of each non-NULL vector column to the query embedding, and the text
search extension would compute a ts_rank for each ts-vector column that
matches the query.  Those externally computed per-row values appear here as
optional fields: `embedding_distance = none` models a NULL embedding column
(and likewise for the summary embedding), while `text_rank = none` models a
row whose search vector does not match the plainto_tsquery. -/
structure ChunkRow where
  id : ℕ
  video_id : String
  chunk_index : ℕ
  start_time : ℚ
  end_time : ℚ
  text : String
  summary : Option String
  embedding_distance : Option ℚ
  summary_embedding_distance : Option ℚ
  text_rank : Option ℚ
  summary_text_rank : Option ℚ
deriving DecidableEq

instance : Inhabited ChunkRow :=
  ⟨⟨0, "", 0, 0, 0, "", none, none, none, none, none⟩⟩

/-- Column selection of search_hybrid: the code compares target_index with
the string "summaries" and otherwise falls back to the chunk columns.
Returns the pair (vector_col, ts_vector_col). -/
def retrieverCols (target_index : String) : String × String :=
  if target_index = "summaries" then ("summary_embedding", "summary_search_vector")
  else ("embedding", "search_vector")

/-- The vector distance the chosen vector column yields for a row, following
the same target_index test as the code. -/
def rowVectorDistance (target_index : String) (r : ChunkRow) : Option ℚ :=
  if target_index = "summaries" then r.summary_embedding_distance
  else r.embedding_distance

/-- The text rank the chosen ts-vector column yields for a row, following the
same target_index test as the code. -/
def rowTextRank (target_index : String) (r : ChunkRow) : Option ℚ :=
  if target_index = "summaries" then r.summary_text_rank
  else r.text_rank

/-- Ordering used by the vector_results CTE: ascending vector distance. -/
def distAsc (target_index : String) (a b : ChunkRow) : Prop :=
  (rowVectorDistance target_index a).getD 0 ≤ (rowVectorDistance target_index b).getD 0

instance (target_index : String) : DecidableRel (distAsc target_index) := fun a b =>
  inferInstanceAs (Decidable (_ ≤ _))

/-- Ordering used by the text_results CTE: descending ts_rank. -/
def rankDesc (target_index : String) (a b : ChunkRow) : Prop :=
  (rowTextRank target_index b).getD 0 ≤ (rowTextRank target_index a).getD 0

instance (target_index : String) : DecidableRel (rankDesc target_index) := fun a b =>
  inferInstanceAs (Decidable (_ ≤ _))

/-- The vector_results CTE: rows whose chosen vector column is not NULL and
whose video_id is in the supplied list, ordered by ascending distance,
limited to top_k. -/
def vector_results (db : List ChunkRow) (target_index : String)
    (video_ids : List String) (top_k : ℕ) : List ChunkRow :=
  ((db.filter (fun r =>
      (rowVectorDistance target_index r).isSome && video_ids.contains r.video_id)).insertionSort
    (distAsc target_index)).take top_k

/-- The text_results CTE: rows whose chosen ts-vector column matches the
query and whose video_id is in the supplied list, ordered by descending
rank, limited to top_k. -/
def text_results (db : List ChunkRow) (target_index : String)
    (video_ids : List String) (top_k : ℕ) : List ChunkRow :=
  ((db.filter (fun r =>
      (rowTextRank target_index r).isSome && video_ids.contains r.video_id)).insertionSort
    (rankDesc target_index)).take top_k

/-- FULL OUTER JOIN of the two candidate sets on the chunk id. -/
def full_outer_join (v t : List ChunkRow) : List (Option ChunkRow × Option ChunkRow) :=
  v.map (fun r => (some r, t.find? (fun tr => tr.id == r.id)))
    ++ (t.filter (fun tr => !(v.any (fun vr => vr.id == tr.id)))).map
      (fun tr => ((none : Option ChunkRow), some tr))

/-- A row of the merged result list built by the Python loop over the join:
COALESCEd chunk fields plus the final hybrid score. -/
structure MergedRow where
  id : ℕ
  video_id : String
  chunk_index : ℕ
  start_time : ℚ
  end_time : ℚ
  text : String
  summary : Option String
  score : ℚ
deriving DecidableEq

/-- One iteration of the merge loop: vector_score is 1 - distance when the
vector side carries a distance and 0 otherwise, text_score is the rank or 0,
and the final score is the weighted sum. -/
def merged_row (vector_weight text_weight : ℚ) (target_index : String)
    (j : Option ChunkRow × Option ChunkRow) : MergedRow :=
  let base : ChunkRow :=
    match j.1 with
    | some r => r
    | none =>
      match j.2 with
      | some r => r
      | none => default
  let vector_score : ℚ :=
    match j.1.bind (rowVectorDistance target_index) with
    | some d => 1 - d
    | none => 0
  let text_score : ℚ :=
    match j.2.bind (rowTextRank target_index) with
    | some rk => rk
    | none => 0
  { id := base.id
    video_id := base.video_id
    chunk_index := base.chunk_index
    start_time := base.start_time
    end_time := base.end_time
    text := base.text
    summary := base.summary
    score := vector_weight * vector_score + text_weight * text_score }

/-- Final ordering of search_hybrid: descending final score. -/
def scoreDesc (a b : MergedRow) : Prop := b.score ≤ a.score

instance : DecidableRel scoreDesc := fun a b =>
  inferInstanceAs (Decidable (_ ≤ _))

instance : IsTotal MergedRow scoreDesc := ⟨fun a b => le_total b.score a.score⟩

instance : IsTrans MergedRow scoreDesc := ⟨fun _ _ _ hab hbc => le_trans hbc hab⟩

/-- RetrieverService.search_hybrid.  The second component counts the
database queries executed: the guard on empty video_ids returns before the
single db.execute of the main path.  The result list is the merged rows
sorted by descending score and truncated to top_k. -/
def search_hybrid (db : List ChunkRow) (top_k : ℕ) (vector_weight text_weight : ℚ)
    (target_index : String) (video_ids : List String) : List MergedRow × ℕ :=
  if video_ids = [] then ([], 0)
  else
    let v := vector_results db target_index video_ids top_k
    let t := text_results db target_index video_ids top_k
    let merged := (full_outer_join v t).map (merged_row vector_weight text_weight target_index)
    ((merged.insertionSort scoreDesc).take top_k, 1)

/-- The target_index value RAGService.ask_stream passes to the retriever on
the CONTENT intent path (src/backend/services/rag.py, line 164). -/
def ask_stream_target_index : String := "summary"

/-- C1: the CONTENT intent path calls the retriever with target index
"summary", but search_hybrid selects the summary columns only when the
target equals the string "summaries"; the value "summary" therefore falls
into the else branch, so the vector candidate set is computed over the
embedding column and the text candidate set over the search_vector column —
not over summary_embedding and summary_search_vector as the claim states.
This theorem evaluates the column selection of the code at the failing
input. -/
theorem content_path_uses_chunk_columns :
    ask_stream_target_index = "summary"
    ∧ retrieverCols ask_stream_target_index = ("embedding", "search_vector")
    ∧ retrieverCols ask_stream_target_index ≠ ("summary_embedding", "summary_search_vector")
    ∧ (∀ r : ChunkRow,
        rowVectorDistance ask_stream_target_index r = r.embedding_distance
        ∧ rowTextRank ask_stream_target_index r = r.text_rank) := by
  refine ⟨rfl, by decide, by decide, fun r => ⟨?_, ?_⟩⟩
  · simp [rowVectorDistance, ask_stream_target_index]
  · simp [rowTextRank, ask_stream_target_index]

/-- Any row of the vector candidate set has its video_id in the supplied
list, because the CTE filters on membership before sorting and limiting. -/
theorem mem_vector_results {db : List ChunkRow} {target_index : String}
    {video_ids : List String} {top_k : ℕ} {r : ChunkRow}
    (h : r ∈ vector_results db target_index video_ids top_k) :
    r.video_id ∈ video_ids := by
  have h1 : r ∈ (db.filter (fun r =>
      (rowVectorDistance target_index r).isSome && video_ids.contains r.video_id)).insertionSort
      (distAsc target_index) := (List.take_sublist _ _).subset h
  have h2 := (List.perm_insertionSort (distAsc target_index) _).subset h1
  have h3 := List.of_mem_filter h2
  simp only [Bool.and_eq_true] at h3
  simpa using h3.2

/-- Any row of the text candidate set has its video_id in the supplied
list. -/
theorem mem_text_results {db : List ChunkRow} {target_index : String}
    {video_ids : List String} {top_k : ℕ} {r : ChunkRow}
    (h : r ∈ text_results db target_index video_ids top_k) :
    r.video_id ∈ video_ids := by
  have h1 : r ∈ (db.filter (fun r =>
      (rowTextRank target_index r).isSome && video_ids.contains r.video_id)).insertionSort
      (rankDesc target_index) := (List.take_sublist _ _).subset h
  have h2 := (List.perm_insertionSort (rankDesc target_index) _).subset h1
  have h3 := List.of_mem_filter h2
  simp only [Bool.and_eq_true] at h3
  simpa using h3.2

/-- Each joined row COALESCEs its chunk fields from one of the two candidate
sets, so its video_id is the video_id of a row of one of them. -/
theorem video_id_of_mem_join {v t : List ChunkRow}
    {j : Option ChunkRow × Option ChunkRow} (hj : j ∈ full_outer_join v t)
    (vw tw : ℚ) (ti : String) :
    ∃ c : ChunkRow, (c ∈ v ∨ c ∈ t) ∧ (merged_row vw tw ti j).video_id = c.video_id := by
  rcases List.mem_append.mp hj with hv | ht
  · rcases List.mem_map.mp hv with ⟨c, hc, rfl⟩
    exact ⟨c, Or.inl hc, rfl⟩
  · rcases List.mem_map.mp ht with ⟨c, hc, rfl⟩
    exact ⟨c, Or.inr (List.mem_of_mem_filter hc), rfl⟩

/-- C2: for every call to search_hybrid, the returned list has length at
most top_k, it is pairwise sorted in non-increasing order of final score,
every returned row has a video_id from the supplied list, and a call with an
empty video_ids list yields the empty list while issuing zero database
queries. -/
theorem search_hybrid_result_bounds (db : List ChunkRow) (top_k : ℕ)
    (vector_weight text_weight : ℚ) (target_index : String) (video_ids : List String) :
    (search_hybrid db top_k vector_weight text_weight target_index video_ids).1.length ≤ top_k
    ∧ List.Pairwise scoreDesc
        (search_hybrid db top_k vector_weight text_weight target_index video_ids).1
    ∧ (∀ r ∈ (search_hybrid db top_k vector_weight text_weight target_index video_ids).1,
        r.video_id ∈ video_ids)
    ∧ search_hybrid db top_k vector_weight text_weight target_index [] = ([], 0) := by
  refine ⟨?_, ?_, ?_, by simp [search_hybrid]⟩
  · by_cases h : video_ids = []
    · simp [search_hybrid, h]
    · simp only [search_hybrid, h, if_false]
      rw [List.length_take]
      exact min_le_left _ _
  · by_cases h : video_ids = []
    · simp [search_hybrid, h]
    · simp only [search_hybrid, h, if_false]
      exact (List.sorted_insertionSort scoreDesc _).sublist (List.take_sublist _ _)
  · intro r hr
    by_cases h : video_ids = []
    · simp [search_hybrid, h] at hr
    · simp only [search_hybrid, h, if_false] at hr
      have h1 := (List.take_sublist _ _).subset hr
      have h2 := (List.perm_insertionSort scoreDesc _).subset h1
      rcases List.mem_map.mp h2 with ⟨j, hj, rfl⟩
      rcases video_id_of_mem_join hj vector_weight text_weight target_index with
        ⟨c, hc | hc, heq⟩
      · rw [heq]; exact mem_vector_results hc
      · rw [heq]; exact mem_text_results hc

/-- Scenario database of the spec: three chunks of one video whose
embeddings lie at distances 0.1, 0.5, 0.9 from the query and whose text
ranks are 0.9, 0.1, 0.5. -/
def scenarioChunk1 : ChunkRow :=
  ⟨1, "v1", 0, 0, 10, "t1", none, some (1/10), none, some (9/10), none⟩

def scenarioChunk2 : ChunkRow :=
  ⟨2, "v1", 1, 10, 20, "t2", none, some (1/2), none, some (1/10), none⟩

def scenarioChunk3 : ChunkRow :=
  ⟨3, "v1", 2, 20, 30, "t3", none, some (9/10), none, some (1/2), none⟩

def scenarioDb : List ChunkRow := [scenarioChunk1, scenarioChunk2, scenarioChunk3]

/-- C8: search_hybrid weighs each merged row as
vector_weight * (1 - distance, or 0 without a distance) plus
text_weight * (rank, or 0 without a rank); on the three seeded chunks with
weights 0.7/0.3 the scores come out as 0.90, 0.38, 0.22 and the rows are
returned in the order c1, c2, c3. -/
theorem search_hybrid_scenario_scores :
    ((search_hybrid scenarioDb 8 (7/10) (3/10) "chunks" ["v1"]).1.map
        (fun r => (r.id, r.score)))
      = [(1, 0.9), (2, 0.38), (3, 0.22)] := by
  norm_num [search_hybrid, scenarioDb, scenarioChunk1, scenarioChunk2, scenarioChunk3,
    vector_results, text_results, full_outer_join, merged_row, rowVectorDistance,
    rowTextRank, distAsc, rankDesc, scoreDesc, List.insertionSort, List.orderedInsert,
    (by decide : (("chunks" : String) = "summaries") = False)]

/-- Witness for the search_hybrid bounds theorem at the scenario database. -/
theorem search_hybrid_result_bounds_witness :
    (search_hybrid scenarioDb 8 (7/10) (3/10) "chunks" ["v1"]).1.length ≤ 8
    ∧ List.Pairwise scoreDesc (search_hybrid scenarioDb 8 (7/10) (3/10) "chunks" ["v1"]).1
    ∧ (∀ r ∈ (search_hybrid scenarioDb 8 (7/10) (3/10) "chunks" ["v1"]).1,
        r.video_id ∈ ["v1"])
    ∧ search_hybrid scenarioDb 8 (7/10) (3/10) "chunks" [] = ([], 0) :=
  search_hybrid_result_bounds scenarioDb 8 (7/10) (3/10) "chunks" ["v1"]

/-! ## Chunk stage (src/worker/flows/chunk_flow.py) -/

/-- Python str.strip(): drop whitespace from both ends of the character
list (Python strings are modelled as lists of characters here, which keeps
every computation kernel-reducible). -/
def pyStrip (s : List Char) : List Char :=
  ((s.dropWhile Char.isWhitespace).reverse.dropWhile Char.isWhitespace).reverse

/-- A transcript segment row, as returned by the segments query ordered by
start_time. -/
structure SegmentRow where
  start_time : ℚ
  end_time : ℚ
  text : List Char
deriving DecidableEq

/-- An element of the chunks list built by chunk_video before insertion. -/
structure ChunkOut where
  start_time : ℚ
  end_time : ℚ
  text : List Char
  summary : List Char
deriving DecidableEq

def TARGET_TOKENS : ℕ := 512

def OVERLAP_TOKENS : ℕ := 100

def AVG_CHARS_PER_TOKEN : ℕ := 4

/-- estimate_tokens: ceil(text_len / AVG_CHARS_PER_TOKEN). -/
def estimate_tokens (text_len : ℕ) : ℕ :=
  (text_len + (AVG_CHARS_PER_TOKEN - 1)) / AVG_CHARS_PER_TOKEN

/-- " ".join over the accumulated segment texts. -/
def joinSpace (cur : List SegmentRow) : List Char :=
  List.intercalate [' '] (cur.map (fun s => s.text))

/-- The chunk record chunk_video appends: start_time of the first
accumulated segment, end_time of the last, the space-joined text and the
stripped LLM summary of that text. -/
def mkChunkOut (summarize : List Char → List Char) (cur : List SegmentRow) : ChunkOut :=
  { start_time :=
      match cur with
      | [] => 0
      | s :: _ => s.start_time
    end_time :=
      match cur.getLast? with
      | none => 0
      | some s => s.end_time
    text := joinSpace cur
    summary := pyStrip (summarize (joinSpace cur)) }

/-- The overlap slide after emitting a chunk: pop segments from the front
while the running char length exceeds OVERLAP_TOKENS * AVG_CHARS_PER_TOKEN
and more than one segment remains; returns the remaining window and the
updated char length. -/
def slide_overlap : List SegmentRow → ℕ → List SegmentRow × ℕ
  | [], n => ([], n)
  | s :: rest, n =>
    if OVERLAP_TOKENS * AVG_CHARS_PER_TOKEN < n ∧ rest ≠ [] then
      slide_overlap rest (n - (s.text.length + 1))
    else (s :: rest, n)

/-- The main loop of chunk_video over the ordered segments.  The
accumulator cur holds the current window of stripped non-empty segments and
n the running char length (each appended segment contributes its stripped
length plus one).  When the token estimate of n reaches TARGET_TOKENS a
chunk is emitted and the window slides; after the loop a trailing chunk is
emitted when the window is non-empty and its token estimate exceeds 50. -/
def chunk_video_loop (summarize : List Char → List Char) :
    List SegmentRow → List SegmentRow → ℕ → List ChunkOut
  | [], cur, n =>
    if cur ≠ [] ∧ 50 < estimate_tokens n then [mkChunkOut summarize cur] else []
  | seg :: rest, cur, n =>
    let t := pyStrip seg.text
    if t = [] then chunk_video_loop summarize rest cur n
    else
      let cur2 := cur ++ [⟨seg.start_time, seg.end_time, t⟩]
      let n2 := n + (t.length + 1)
      if TARGET_TOKENS ≤ estimate_tokens n2 then
        let sl := slide_overlap cur2 n2
        mkChunkOut summarize cur2 :: chunk_video_loop summarize rest sl.1 sl.2
      else
        chunk_video_loop summarize rest cur2 n2

/-- A stored chunk row as inserted by chunk_video: the chunks of a video are
replaced by the new sequence, with chunk_index the 0-based enumeration
position. -/
structure StoredChunk where
  video_id : String
  chunk_index : ℕ
  start_time : ℚ
  end_time : ℚ
  text : List Char
  summary : List Char
deriving DecidableEq

/-- chunk_video: build the chunk list from the segments (which the query
returns ordered by start_time) and insert them with enumerate-based
indices. -/
def chunk_video (summarize : List Char → List Char) (video_id : String)
    (segments : List SegmentRow) : List StoredChunk :=
  (chunk_video_loop summarize segments [] 0).enum.map
    (fun p => ⟨video_id, p.1, p.2.start_time, p.2.end_time, p.2.text, p.2.summary⟩)

/-- Scenario input of the spec: 10 sequential one-second segments of 80
characters each. -/
def scenarioSegText : List Char := List.replicate 80 'a'

def scenarioSegments : List SegmentRow :=
  [⟨0, 1, scenarioSegText⟩, ⟨1, 2, scenarioSegText⟩, ⟨2, 3, scenarioSegText⟩,
    ⟨3, 4, scenarioSegText⟩, ⟨4, 5, scenarioSegText⟩, ⟨5, 6, scenarioSegText⟩,
    ⟨6, 7, scenarioSegText⟩, ⟨7, 8, scenarioSegText⟩, ⟨8, 9, scenarioSegText⟩,
    ⟨9, 10, scenarioSegText⟩]

set_option maxRecDepth 4000 in
/-- C4: the chunker accumulates the ten 80-character segments without ever
reaching the 512-token target (the running estimate stays at 203 tokens),
and the trailing residual chunk is emitted because 203 > 50: the output is
exactly one chunk spanning start_time 0 to end_time 10 whose text is the
space-join of the ten segment texts. -/
theorem chunker_scenario_single_chunk :
    chunk_video_loop (fun _ => []) scenarioSegments [] 0
      = [{ start_time := 0, end_time := 10,
           text := List.intercalate [' '] (List.replicate 10 scenarioSegText),
           summary := [] }] := by decide

/-- The slide keeps a suffix of the window: it only pops from the front. -/
theorem slide_overlap_suffix (cur : List SegmentRow) :
    ∀ n : ℕ, (slide_overlap cur n).1 <:+ cur := by
  induction cur with
  | nil => intro n; simp [slide_overlap]
  | cons s rest ih =>
    intro n
    rw [slide_overlap]
    split
    · exact (ih _).trans (List.suffix_cons s rest)
    · exact List.suffix_rfl

/-- The slide never empties a non-empty window: it stops at one segment. -/
theorem slide_overlap_ne_nil (cur : List SegmentRow) :
    ∀ n : ℕ, cur ≠ [] → (slide_overlap cur n).1 ≠ [] := by
  induction cur with
  | nil => intro n h; exact absurd rfl h
  | cons s rest ih =>
    intro n _
    rw [slide_overlap]
    split
    · next h => exact ih _ h.2
    · exact List.cons_ne_nil s rest

/-- The emitted chunk starts at the first accumulated segment. -/
theorem mkChunkOut_start (f : List Char → List Char) (s : SegmentRow) (l : List SegmentRow) :
    (mkChunkOut f (s :: l)).start_time = s.start_time := rfl

/-- In a window sorted by start_time, the head starts no later than any
member. -/
theorem head_le_of_pairwise {s : SegmentRow} {l : List SegmentRow}
    (h : (s :: l).Pairwise (fun x y => x.start_time ≤ y.start_time)) :
    ∀ x ∈ s :: l, s.start_time ≤ x.start_time := by
  intro x hx
  rcases List.mem_cons.mp hx with rfl | hx
  · exact le_rfl
  · exact (List.pairwise_cons.mp h).1 x hx

/-- Invariant of the chunking loop: if the pending window and the remaining
segments are sorted by start_time, every segment of the window starts no
later than every remaining segment, and b bounds all their start times from
below, then the emitted chunks are sorted by start_time and all start at or
after b. -/
theorem chunk_video_loop_sorted (summarize : List Char → List Char)
    (segs : List SegmentRow) :
    ∀ (cur : List SegmentRow) (n : ℕ) (b : ℚ),
    cur.Pairwise (fun x y => x.start_time ≤ y.start_time) →
    segs.Pairwise (fun x y => x.start_time ≤ y.start_time) →
    (∀ c ∈ cur, ∀ s ∈ segs, c.start_time ≤ s.start_time) →
    (∀ c ∈ cur, b ≤ c.start_time) →
    (∀ s ∈ segs, b ≤ s.start_time) →
    (chunk_video_loop summarize segs cur n).Pairwise
        (fun x y => x.start_time ≤ y.start_time)
    ∧ ∀ ch ∈ chunk_video_loop summarize segs cur n, b ≤ ch.start_time := by
  induction segs with
  | nil =>
    intro cur n b hcur _ _ hb _
    rw [chunk_video_loop]
    split
    · next hc =>
      refine ⟨List.pairwise_singleton _ _, ?_⟩
      intro ch hch
      rcases List.mem_singleton.mp hch with rfl
      obtain ⟨c0, l0, rfl⟩ := List.exists_cons_of_ne_nil hc.1
      rw [mkChunkOut_start]
      exact hb c0 (List.mem_cons_self _ _)
    · exact ⟨List.Pairwise.nil, by simp⟩
  | cons seg rest ih =>
    intro cur n b hcur hsegs hcross hb hbseg
    have hsegrel := (List.pairwise_cons.mp hsegs).1
    have hrest := (List.pairwise_cons.mp hsegs).2
    rw [chunk_video_loop]
    by_cases ht : pyStrip seg.text = []
    · simp only [ht, if_true]
      exact ih cur n b hcur hrest
        (fun c hc s hs => hcross c hc s (List.mem_cons_of_mem _ hs))
        hb (fun s hs => hbseg s (List.mem_cons_of_mem _ hs))
    · simp only [ht, if_false]
      set seg2 : SegmentRow := ⟨seg.start_time, seg.end_time, pyStrip seg.text⟩ with hseg2
      have hcur2 : (cur ++ [seg2]).Pairwise (fun x y => x.start_time ≤ y.start_time) := by
        refine List.pairwise_append.mpr ⟨hcur, List.pairwise_singleton _ _, ?_⟩
        intro c hc s hs
        rcases List.mem_singleton.mp hs with rfl
        exact hcross c hc seg (List.mem_cons_self _ _)
      have hcross2 : ∀ c ∈ cur ++ [seg2], ∀ s ∈ rest, c.start_time ≤ s.start_time := by
        intro c hc s hs
        rcases List.mem_append.mp hc with hc | hc
        · exact hcross c hc s (List.mem_cons_of_mem _ hs)
        · rcases List.mem_singleton.mp hc with rfl
          exact hsegrel s hs
      have hb2 : ∀ c ∈ cur ++ [seg2], b ≤ c.start_time := by
        intro c hc
        rcases List.mem_append.mp hc with hc | hc
        · exact hb c hc
        · rcases List.mem_singleton.mp hc with rfl
          exact hbseg seg (List.mem_cons_self _ _)
      have hbrest : ∀ s ∈ rest, b ≤ s.start_time :=
        fun s hs => hbseg s (List.mem_cons_of_mem _ hs)
      split
      · -- a chunk is emitted and the window slides
        obtain ⟨c0, l0, he⟩ : ∃ c0 l0, cur ++ [seg2] = c0 :: l0 :=
          List.exists_cons_of_ne_nil (by simp)
        have hc0mem : c0 ∈ cur ++ [seg2] := by
          rw [he]; exact List.mem_cons_self _ _
        have hmk : (mkChunkOut summarize (cur ++ [seg2])).start_time = c0.start_time := by
          rw [he]; exact mkChunkOut_start summarize c0 l0
        have hhead : ∀ x ∈ cur ++ [seg2], c0.start_time ≤ x.start_time := by
          rw [he] at hcur2 ⊢; exact head_le_of_pairwise hcur2
        have hsub :
            (slide_overlap (cur ++ [seg2]) (n + (((pyStrip seg.text)).length + 1))).1
              <:+ cur ++ [seg2] := slide_overlap_suffix _ _
        have ihr := ih (slide_overlap (cur ++ [seg2])
            (n + (((pyStrip seg.text)).length + 1))).1
          (slide_overlap (cur ++ [seg2]) (n + (((pyStrip seg.text)).length + 1))).2
          c0.start_time
          (hcur2.sublist hsub.sublist) hrest
          (fun c hc s hs => hcross2 c (hsub.subset hc) s hs)
          (fun c hc => hhead c (hsub.subset hc))
          (fun s hs => hcross2 c0 hc0mem s hs)
        constructor
        · refine List.pairwise_cons.mpr ⟨?_, ihr.1⟩
          intro ch hch
          rw [hmk]
          exact ihr.2 ch hch
        · intro ch hch
          rcases List.mem_cons.mp hch with rfl | hch
          · rw [hmk]
            exact hb2 c0 hc0mem
          · exact le_trans (hb2 c0 hc0mem) (ihr.2 ch hch)
      · -- keep accumulating
        exact ih (cur ++ [seg2]) (n + (((pyStrip seg.text)).length + 1)) b
          hcur2 hrest hcross2 hb2 hbrest

/-- The chunk list a run of the chunk stage produces is sorted by
start_time whenever the segments come in start-time order (which the
segments query guarantees). -/
theorem chunk_video_loop_sorted_of_sorted (summarize : List Char → List Char)
    (segments : List SegmentRow)
    (h : segments.Pairwise (fun a b => a.start_time ≤ b.start_time)) :
    (chunk_video_loop summarize segments [] 0).Pairwise
      (fun x y => x.start_time ≤ y.start_time) := by
  cases segments with
  | nil => rw [chunk_video_loop]; simp
  | cons s rest =>
    exact (chunk_video_loop_sorted summarize (s :: rest) [] 0 s.start_time
      List.Pairwise.nil h (by simp) (by simp) (head_le_of_pairwise h)).1

/-- C5: after a run of the chunk stage on a video, the stored chunks carry
0-based contiguous chunk_index values (their index list is exactly
range of the chunk count), every stored chunk belongs to the processed
video, and a smaller chunk_index implies a start_time that is not larger. -/
theorem chunk_video_indices_and_monotone (summarize : List Char → List Char)
    (video_id : String) (segments : List SegmentRow)
    (h : segments.Pairwise (fun a b => a.start_time ≤ b.start_time)) :
    ((chunk_video summarize video_id segments).map (fun c => c.chunk_index)
        = List.range (chunk_video_loop summarize segments [] 0).length)
    ∧ (∀ c ∈ chunk_video summarize video_id segments, c.video_id = video_id)
    ∧ ∀ c1 ∈ chunk_video summarize video_id segments,
        ∀ c2 ∈ chunk_video summarize video_id segments,
          c1.chunk_index < c2.chunk_index → c1.start_time ≤ c2.start_time := by
  refine ⟨?_, ?_, ?_⟩
  · rw [chunk_video, List.map_map]
    exact List.enum_map_fst _
  · intro c hc
    rcases List.mem_map.mp hc with ⟨p, _, rfl⟩
    rfl
  · have hp := chunk_video_loop_sorted_of_sorted summarize segments h
    intro c1 hc1 c2 hc2 hlt
    rcases List.mem_map.mp hc1 with ⟨⟨i, ch1⟩, hp1, rfl⟩
    rcases List.mem_map.mp hc2 with ⟨⟨j, ch2⟩, hp2, rfl⟩
    obtain ⟨hi, he1⟩ := List.getElem?_eq_some.mp (List.mem_enum_iff_getElem?.mp hp1)
    obtain ⟨hj, he2⟩ := List.getElem?_eq_some.mp (List.mem_enum_iff_getElem?.mp hp2)
    have := (List.pairwise_iff_getElem.mp hp) i j hi hj hlt
    rw [he1, he2] at this
    exact this

/-- Witness: the chunk index/monotonicity theorem applied to the scenario
segments, whose sortedness is decided concretely. -/
theorem chunk_video_indices_and_monotone_witness :
    (scenarioSegments.Pairwise (fun a b => a.start_time ≤ b.start_time))
    ∧ (((chunk_video (fun _ => []) "vid0" scenarioSegments).map (fun c => c.chunk_index)
        = List.range (chunk_video_loop (fun _ => []) scenarioSegments [] 0).length)
      ∧ (∀ c ∈ chunk_video (fun _ => []) "vid0" scenarioSegments, c.video_id = "vid0")
      ∧ ∀ c1 ∈ chunk_video (fun _ => []) "vid0" scenarioSegments,
          ∀ c2 ∈ chunk_video (fun _ => []) "vid0" scenarioSegments,
            c1.chunk_index < c2.chunk_index → c1.start_time ≤ c2.start_time) :=
  ⟨by decide, chunk_video_indices_and_monotone (fun _ => []) "vid0" scenarioSegments
    (by decide)⟩

/-! ## Worker task runner (src/worker/tasks.py) -/

inductive TaskStatus where
  | pending
  | running
  | completed
  | failed
deriving DecidableEq

/-- A pipeline_tasks row, restricted to the fields the worker mutates.
Timestamps are naturals; the commit points of the Python sessions are not
tracked because every mutation of one run is committed before the function
returns. -/
structure Task where
  status : TaskStatus
  progress : ℕ
  error_message : Option String
  result : Option String
  started_at : Option ℕ
  completed_at : Option ℕ
deriving DecidableEq

/-- update_task_state: write the progress bar and, when the result snippet
is truthy (Python: a non-empty string), the result text. -/
def update_task_state (t : Task) (progress : ℕ) (current_result : Option String) : Task :=
  { t with
    progress := progress
    result :=
      match current_result with
      | some s => if s = "" then t.result else some s
      | none => t.result }

/-- Outcome of the three sub-stages of one video: success, or the first
flow whose call raises (process_single_video catches the exception and
reports failure for that video). -/
inductive VideoOutcome where
  | ok
  | failTranscribe
  | failChunk
  | failEmbed
deriving DecidableEq

/-- process_single_video: stage the progress bar through the video's slice
(the float factors 0.4 and 0.7 become the rationals 2/5 and 7/10) and
report whether all three flows succeeded. -/
def process_single_video (t : Task) (out : VideoOutcome) (base_progress : ℕ)
    (segment_size : ℚ) (video_id : String) : Task × Bool :=
  let t1 := update_task_state t base_progress
    (some ("Transcribing video: " ++ video_id ++ "..."))
  match out with
  | .failTranscribe => (t1, false)
  | out =>
    let p_chunk := Int.toNat ⌊(base_progress : ℚ) + segment_size * (2/5)⌋
    let t2 := update_task_state t1 p_chunk
      (some ("Chunking text for: " ++ video_id ++ "..."))
    match out with
    | .failChunk => (t2, false)
    | out =>
      let p_embed := Int.toNat ⌊(base_progress : ℚ) + segment_size * (7/10)⌋
      let t3 := update_task_state t2 p_embed
        (some ("Generating embeddings for: " ++ video_id ++ "..."))
      match out with
      | .failEmbed => (t3, false)
      | _ => (t3, true)

/-- The per-video loop of run_task.  Before each iteration the worker
re-reads the task row; cancelled i models an external write of status
failed observed at iteration i, upon which the loop breaks.  Returns the
task state and the success count. -/
def run_task_loop (outs : ℕ → VideoOutcome) (cancelled : ℕ → Bool) (total : ℕ) :
    List String → ℕ → Task → ℕ → Task × ℕ
  | [], _, t, succ => (t, succ)
  | vid :: rest, i, t, succ =>
    if cancelled i then ({ t with status := .failed }, succ)
    else
      let current_base := Int.toNat ⌊(10 : ℚ) + (i : ℚ) * ((90 : ℚ) / (total : ℚ))⌋
      let r := process_single_video t (outs i) current_base ((90 : ℚ) / (total : ℚ)) vid
      run_task_loop outs cancelled total rest (i + 1) r.1 (if r.2 then succ + 1 else succ)

/-- run_task for a pipeline task.  The ingest flow either raises (the
except-branch of the Python try) or yields the list of new video ids; the
per-video outcomes and the cancellation observations parametrize the
loop. -/
def run_task (t : Task) (ingest : Except String (List String)) (outs : ℕ → VideoOutcome)
    (cancelled : ℕ → Bool) (now : ℕ) : Task :=
  let t0 := { t with
    status := TaskStatus.running, started_at := some now, progress := 0,
    result := some "Initializing..." }
  let t1 := update_task_state t0 5 (some "Ingesting channel metadata and audio...")
  match ingest with
  | .error e =>
    let t2 := { t1 with
      status := TaskStatus.failed, error_message := some e, completed_at := some now }
    update_task_state t2 t2.progress (some "Critical System Error")
  | .ok video_ids =>
    if video_ids = [] then
      let t2 := { t1 with
        status := TaskStatus.completed, progress := 100, completed_at := some now }
      update_task_state t2 100 (some "Completed. No new videos found.")
    else
      let total := video_ids.length
      let t2 := update_task_state t1 10
        (some s!"Found {total} new videos. Starting processing...")
      let r := run_task_loop outs cancelled total video_ids 0 t2 0
      let success_count := r.2
      let t3 := { r.1 with completed_at := some now }
      let final_msg := s!"Finished. {success_count}/{total} videos processed successfully."
      if success_count = 0 ∧ 0 < total then
        update_task_state { t3 with
          status := TaskStatus.failed,
          error_message := some "All videos failed to process." } 100 (some "Failed. See logs.")
      else if success_count < total then
        update_task_state { t3 with
          status := TaskStatus.completed,
          error_message :=
            some s!"Completed with errors. {success_count}/{total} processed." }
          100 (some final_msg)
      else
        update_task_state { t3 with status := TaskStatus.completed } 100 (some final_msg)

/-- run_embedding for an embed_question task: the encoder either yields the
serialized vector or raises.  On success the status flips to completed and
the progress bar is pushed to 100; only the failure branch stamps
completed_at. -/
def run_embedding (t : Task) (embed : Except String String) (now : ℕ) : Task :=
  let t0 := { t with status := TaskStatus.running, started_at := some now }
  let t1 := update_task_state t0 10 (some "Calculating embedding...")
  match embed with
  | .ok v =>
    let t2 := { t1 with result := some v, status := TaskStatus.completed }
    update_task_state t2 100 none
  | .error e =>
    { t1 with
      status := TaskStatus.failed, error_message := some e, completed_at := some now }

/-- reset_stuck_tasks: on worker boot, flip every running row to failed
with the restart error message and a completion timestamp; other rows are
untouched. -/
def reset_stuck_tasks (tasks : List Task) (now : ℕ) : List Task :=
  tasks.map (fun t =>
    if t.status = TaskStatus.running then
      { t with
        status := TaskStatus.failed,
        error_message := some "Worker crashed or restarted during execution",
        completed_at := some now }
    else t)

/-- A freshly enqueued task row (status pending, empty bookkeeping). -/
def freshTask : Task := ⟨TaskStatus.pending, 0, none, none, none, none⟩

/-- C3: a successful run_embedding leaves the task completed with progress
100 but with completed_at still null — the success branch never stamps the
completion timestamp, contradicting the terminal-timestamp invariant the
spec states for both task types. -/
theorem run_embedding_completed_without_timestamp :
    (run_embedding freshTask (Except.ok "[0.1, 0.2]") 42).status = TaskStatus.completed
    ∧ (run_embedding freshTask (Except.ok "[0.1, 0.2]") 42).progress = 100
    ∧ (run_embedding freshTask (Except.ok "[0.1, 0.2]") 42).completed_at = none := by
  decide

/-- Number of successful outcomes among len consecutive video indices
starting at i. -/
def countOk (outs : ℕ → VideoOutcome) : ℕ → ℕ → ℕ
  | _, 0 => 0
  | i, len + 1 => (if outs i = VideoOutcome.ok then 1 else 0) + countOk outs (i + 1) len

/-- The reported per-video success flag is exactly whether all three flows
succeeded. -/
theorem process_single_video_snd (t : Task) (out : VideoOutcome) (base : ℕ)
    (seg : ℚ) (vid : String) :
    (process_single_video t out base seg vid).2 = decide (out = VideoOutcome.ok) := by
  cases out <;> rfl

/-- Without external cancellation the loop counts exactly the successful
videos. -/
theorem run_task_loop_success (outs : ℕ → VideoOutcome) (total : ℕ) (vids : List String) :
    ∀ (i : ℕ) (t : Task) (succ : ℕ),
      (run_task_loop outs (fun _ => false) total vids i t succ).2
        = succ + countOk outs i vids.length := by
  induction vids with
  | nil => intro i t succ; simp [run_task_loop, countOk]
  | cons v rest ih =>
    intro i t succ
    rw [run_task_loop]
    simp only [Bool.false_eq_true, if_false, List.length_cons]
    rw [ih, process_single_video_snd]
    by_cases h : outs i = VideoOutcome.ok
    · simp [countOk, h]; omega
    · simp [countOk, h]

/-- C6 (amended): finalization of a pipeline task over N = |vids| > 0
ingested videos without external cancellation: zero successes yield status
failed; a partial success count S with 0 < S < N yields status completed
with error_message "Completed with errors. S/N processed."; full success
yields status completed. -/
theorem run_task_finalization (t : Task) (vids : List String) (outs : ℕ → VideoOutcome)
    (now : ℕ) (hne : vids ≠ []) :
    (countOk outs 0 vids.length = 0 →
      (run_task t (Except.ok vids) outs (fun _ => false) now).status = TaskStatus.failed)
    ∧ (0 < countOk outs 0 vids.length → countOk outs 0 vids.length < vids.length →
        (run_task t (Except.ok vids) outs (fun _ => false) now).status = TaskStatus.completed
        ∧ (run_task t (Except.ok vids) outs (fun _ => false) now).error_message
          = some s!"Completed with errors. {countOk outs 0 vids.length}/{vids.length} processed.")
    ∧ (countOk outs 0 vids.length = vids.length →
        (run_task t (Except.ok vids) outs (fun _ => false) now).status
          = TaskStatus.completed) := by
  have hpos : 0 < vids.length := List.length_pos.mpr hne
  have hsucc := run_task_loop_success outs vids.length vids 0
  refine ⟨?_, ?_, ?_⟩
  · intro hz
    simp only [run_task, if_neg hne]
    rw [hsucc, Nat.zero_add, hz, if_pos ⟨rfl, hpos⟩]
    rfl
  · intro h1 h2
    simp only [run_task, if_neg hne]
    rw [hsucc, Nat.zero_add,
      if_neg (by intro hc; exact absurd hc.1 (Nat.pos_iff_ne_zero.mp h1)),
      if_pos h2]
    exact ⟨rfl, rfl⟩
  · intro hq
    simp only [run_task, if_neg hne]
    rw [hsucc, Nat.zero_add,
      if_neg (by intro hc; rw [hc.1] at hq; exact absurd hq.symm (Nat.pos_iff_ne_zero.mp hpos)),
      if_neg (by rw [hq]; exact lt_irrefl _)]
    rfl

/-- Per-video outcomes with exactly one success at index 0. -/
def outsOneFail : ℕ → VideoOutcome :=
  fun i => if i = 0 then VideoOutcome.ok else VideoOutcome.failEmbed

/-- C6 counterexample: with one of two videos processed the task completes,
but its error_message is the string "Completed with errors. 1/2 processed."
and not the string "1/2 processed" the claim states. -/
theorem run_task_partial_message_counterexample :
    (run_task freshTask (Except.ok ["a", "b"]) outsOneFail (fun _ => false) 7).status
        = TaskStatus.completed
    ∧ (run_task freshTask (Except.ok ["a", "b"]) outsOneFail (fun _ => false) 7).error_message
        = some "Completed with errors. 1/2 processed."
    ∧ (run_task freshTask (Except.ok ["a", "b"]) outsOneFail (fun _ => false) 7).error_message
        ≠ some "1/2 processed" := by
  decide

/-- Witness for the finalization theorem: two videos with one success. -/
theorem run_task_finalization_witness :
    (["a", "b"] ≠ ([] : List String))
    ∧ (0 < countOk outsOneFail 0 (["a", "b"] : List String).length)
    ∧ (countOk outsOneFail 0 (["a", "b"] : List String).length
        < (["a", "b"] : List String).length)
    ∧ (run_task freshTask (Except.ok ["a", "b"]) outsOneFail (fun _ => false) 7).status
        = TaskStatus.completed :=
  ⟨by decide, by decide, by decide,
    ((run_task_finalization freshTask ["a", "b"] outsOneFail 7 (by decide)).2.1
      (by decide) (by decide)).1⟩

/-- Supporting invariant (not itself one of the claims): run_task, unlike
run_embedding, stamps progress 100 and completed_at on every path that ends
in status completed. -/
theorem run_task_completed_stamps (t : Task) (ingest : Except String (List String))
    (outs : ℕ → VideoOutcome) (cancelled : ℕ → Bool) (now : ℕ)
    (h : (run_task t ingest outs cancelled now).status = TaskStatus.completed) :
    (run_task t ingest outs cancelled now).progress = 100
    ∧ (run_task t ingest outs cancelled now).completed_at = some now := by
  cases ingest with
  | error e =>
    exfalso
    simp [run_task, update_task_state] at h
  | ok vids =>
    by_cases hv : vids = []
    · simp [run_task, hv, update_task_state]
    · simp only [run_task, if_neg hv]
      split_ifs <;> simp [update_task_state]

/-- A task row seeded in running state. -/
def stuckSeedTask : Task := ⟨TaskStatus.running, 40, none, none, some 1, none⟩

/-- C7 counterexample: reset_stuck_tasks does flip a seeded running task to
failed, but its error message is "Worker crashed or restarted during
execution", not the "worker restarted" the claim states. -/
theorem reset_stuck_message_counterexample :
    ((reset_stuck_tasks [stuckSeedTask] 9).map (fun t => t.status) = [TaskStatus.failed])
    ∧ (reset_stuck_tasks [stuckSeedTask] 9).map (fun t => t.error_message)
        ≠ [some "worker restarted"] := by
  decide

/-- C7 (amended): reset_stuck_tasks preserves the table length and maps
each row to itself unless its status is running, in which case the row
becomes failed with error_message "Worker crashed or restarted during
execution" and a completion timestamp; in particular a seeded running task
ends failed with exactly that message. -/
theorem reset_stuck_tasks_spec (tasks : List Task) (now : ℕ) :
    ((reset_stuck_tasks tasks now).length = tasks.length
    ∧ ∀ i : Fin tasks.length,
        (reset_stuck_tasks tasks now)[(i : ℕ)]? =
          some (if (tasks.get i).status = TaskStatus.running then
            { tasks.get i with
              status := TaskStatus.failed,
              error_message := some "Worker crashed or restarted during execution",
              completed_at := some now }
          else tasks.get i))
    ∧ (reset_stuck_tasks [stuckSeedTask] 9).map (fun t => (t.status, t.error_message))
        = [(TaskStatus.failed, some "Worker crashed or restarted during execution")] := by
  refine ⟨⟨List.length_map _ _, ?_⟩, by decide⟩
  intro i
  rw [reset_stuck_tasks, List.getElem?_map, List.getElem?_eq_getElem i.isLt]
  simp [List.get_eq_getElem]

/-- Witness for the reset_stuck_tasks theorem at a concrete one-row
table. -/
theorem reset_stuck_tasks_spec_witness :
    ((reset_stuck_tasks [stuckSeedTask] 9).length = [stuckSeedTask].length
    ∧ ∀ i : Fin [stuckSeedTask].length,
        (reset_stuck_tasks [stuckSeedTask] 9)[(i : ℕ)]? =
          some (if ([stuckSeedTask].get i).status = TaskStatus.running then
            { [stuckSeedTask].get i with
              status := TaskStatus.failed,
              error_message := some "Worker crashed or restarted during execution",
              completed_at := some 9 }
          else [stuckSeedTask].get i))
    ∧ (reset_stuck_tasks [stuckSeedTask] 9).map (fun t => (t.status, t.error_message))
        = [(TaskStatus.failed, some "Worker crashed or restarted during execution")] :=
  reset_stuck_tasks_spec [stuckSeedTask] 9

/-! ## Chat persistence (src/backend/services/rag.py step 3,
src/backend/db/repositories/chat.py, src/backend/db/repositories/base.py) -/

/-- A chat_messages row as produced by ChatMessageRepository.add_message
(sources already JSON-serialized or NULL). -/
structure ChatMessage where
  session_id : ℕ
  role : String
  content : String
  sources : Option String
deriving DecidableEq

/-- Database session operations at transaction granularity: staging a row
and committing the staged rows. -/
inductive DBOp where
  | write (m : ChatMessage)
  | commit
deriving DecidableEq

/-- Run a list of operations over (committed rows, staged rows). -/
def applyOps : List DBOp → List ChatMessage × List ChatMessage →
    List ChatMessage × List ChatMessage
  | [], s => s
  | DBOp.write m :: rest, (c, p) => applyOps rest (c, p ++ [m])
  | DBOp.commit :: rest, (c, p) => applyOps rest (c ++ p, [])

/-- The rows committed after running a list of operations from an empty
store: stopping at any point of the list models a failure there. -/
def committedAfter (ops : List DBOp) : List ChatMessage := (applyOps ops ([], [])).1

/-- BaseRepository.create: stage the row, then commit immediately. -/
def create_ops (m : ChatMessage) : List DBOp := [DBOp.write m, DBOp.commit]

def user_message (sid : ℕ) (question : String) : ChatMessage :=
  ⟨sid, "user", question, none⟩

def assistant_message (sid : ℕ) (answer : String) (sources : Option String) : ChatMessage :=
  ⟨sid, "assistant", answer, sources⟩

/-- The persistence tail of RAGService.ask_stream: one add_message for the
user question, then one add_message for the assistant answer — each a
separate create, hence a separate commit. -/
def ask_stream_persist_ops (sid : ℕ) (question answer : String)
    (sources : Option String) : List DBOp :=
  create_ops (user_message sid question) ++ create_ops (assistant_message sid answer sources)

/-- C9 counterexample: the persistence tail issues two commits, and
stopping right after the first one (operation index 2) leaves exactly the
user message committed with no assistant message — the two messages are not
written in one transaction, so "both or neither" fails at that boundary. -/
theorem ask_stream_two_commits_counterexample :
    (ask_stream_persist_ops 1 "q" "a" none).count DBOp.commit = 2
    ∧ committedAfter ((ask_stream_persist_ops 1 "q" "a" none).take 2)
        = [user_message 1 "q"]
    ∧ user_message 1 "q" ∈ committedAfter ((ask_stream_persist_ops 1 "q" "a" none).take 2)
    ∧ assistant_message 1 "a" none
        ∉ committedAfter ((ask_stream_persist_ops 1 "q" "a" none).take 2) := by
  decide

/-- C9 (amended): after the stream closes the user and assistant messages
are persisted by two consecutive single-row transactions, user first; the
full run commits exactly the pair in order, and at every failure boundary a
committed assistant message is always preceded by its committed user
message (while the converse can fail, as the counterexample shows). -/
theorem ask_stream_persist_pair_ordered (sid : ℕ) (question answer : String)
    (sources : Option String) :
    committedAfter (ask_stream_persist_ops sid question answer sources)
        = [user_message sid question, assistant_message sid answer sources]
    ∧ (ask_stream_persist_ops sid question answer sources).count DBOp.commit = 2
    ∧ ∀ k : ℕ,
        assistant_message sid answer sources
            ∈ committedAfter ((ask_stream_persist_ops sid question answer sources).take k)
          → user_message sid question
            ∈ committedAfter ((ask_stream_persist_ops sid question answer sources).take k) := by
  refine ⟨rfl, ?_, ?_⟩
  · simp [ask_stream_persist_ops, create_ops, List.count_append, List.count_cons]
  · intro k h
    rcases k with _ | _ | _ | _ | k
    · simp [committedAfter, applyOps] at h
    · simp [ask_stream_persist_ops, create_ops, committedAfter, applyOps] at h
    · simp [ask_stream_persist_ops, create_ops, committedAfter, applyOps,
        user_message, assistant_message] at h
    · simp [ask_stream_persist_ops, create_ops, committedAfter, applyOps,
        user_message, assistant_message] at h
    · simp [ask_stream_persist_ops, create_ops, committedAfter, applyOps,
        List.take_of_length_le]

/-- Witness for the persistence-pair theorem at a concrete message pair. -/
theorem ask_stream_persist_pair_ordered_witness :
    committedAfter (ask_stream_persist_ops 2 "who?" "nobody" (some "[]"))
        = [user_message 2 "who?", assistant_message 2 "nobody" (some "[]")]
    ∧ (ask_stream_persist_ops 2 "who?" "nobody" (some "[]")).count DBOp.commit = 2
    ∧ ∀ k : ℕ,
        assistant_message 2 "nobody" (some "[]")
            ∈ committedAfter ((ask_stream_persist_ops 2 "who?" "nobody" (some "[]")).take k)
          → user_message 2 "who?"
            ∈ committedAfter ((ask_stream_persist_ops 2 "who?" "nobody" (some "[]")).take k) :=
  ask_stream_persist_pair_ordered 2 "who?" "nobody" (some "[]")

/-! ## Session upsert (src/backend/db/repositories/chat.py,
ChatSessionRepository.get_or_create; src/backend/services/rag.py step 1) -/

/-- A chat_sessions row. -/
structure ChatSession where
  id : ℕ
  title : String
  channel_id : ℤ
deriving DecidableEq

/-- ChatSessionRepository.get_or_create.  parse_uuid models
uuid.UUID over the stripped session_id string, returning none where the
Python constructor raises ValueError (which the code catches); fresh models
the uuid4 value drawn for a new row.  An empty string is falsy in Python,
so it skips the lookup just like a missing session_id.  Returns the session
together with the updated store (create appends and commits). -/
def get_or_create (store : List ChatSession) (parse_uuid : String → Option ℕ)
    (fresh : ℕ) (question : String) (channel_id : ℤ) (session_id : Option String) :
    ChatSession × List ChatSession :=
  let created : ChatSession := ⟨fresh, question, channel_id⟩
  let fallback := (created, store ++ [created])
  match session_id with
  | none => fallback
  | some sid =>
    if sid = "" then fallback
    else
      match parse_uuid sid with
      | none => fallback
      | some u =>
        match store.find? (fun s => s.id == u) with
        | some s => (s, store)
        | none => fallback

/-- The first event RAGService.ask_stream yields: a session_id event whose
data is the id of the session get_or_create returned. -/
def ask_stream_first_event (session : ChatSession) : String × String :=
  ("session_id", toString session.id)

/-- C10: when the supplied session_id does not parse as a UUID, or parses
to an id with no matching ChatSession row, get_or_create raises no error
and silently creates a fresh session titled with the question under the
given channel; the first streamed session_id event carries the fresh id —
which differs from any parsed supplied id distinct from the fresh draw. -/
theorem get_or_create_unknown_session (store : List ChatSession)
    (parse_uuid : String → Option ℕ) (fresh : ℕ) (question : String)
    (channel_id : ℤ) (sid : String)
    (h : parse_uuid sid = none
      ∨ ∃ u, parse_uuid sid = some u ∧ store.find? (fun s => s.id == u) = none) :
    (get_or_create store parse_uuid fresh question channel_id (some sid)).1.id = fresh
    ∧ (get_or_create store parse_uuid fresh question channel_id (some sid)).1.title = question
    ∧ (get_or_create store parse_uuid fresh question channel_id (some sid)).1.channel_id
        = channel_id
    ∧ (get_or_create store parse_uuid fresh question channel_id (some sid)).2
        = store ++ [⟨fresh, question, channel_id⟩]
    ∧ ask_stream_first_event
        (get_or_create store parse_uuid fresh question channel_id (some sid)).1
        = ("session_id", toString fresh)
    ∧ ∀ u, parse_uuid sid = some u → fresh ≠ u →
        (get_or_create store parse_uuid fresh question channel_id (some sid)).1.id ≠ u := by
  have hnew :
      get_or_create store parse_uuid fresh question channel_id (some sid)
        = (⟨fresh, question, channel_id⟩, store ++ [⟨fresh, question, channel_id⟩]) := by
    rw [get_or_create]
    by_cases he : sid = ""
    · simp [he]
    · simp only [he, if_false]
      rcases h with hp | ⟨u, hp, hf⟩
      · rw [hp]
      · simp only [hp, hf]
  rw [hnew]
  exact ⟨rfl, rfl, rfl, rfl, rfl, fun u _ hne => hne⟩

/-- Witness for the unknown-session theorem: an empty store and an
unparseable session_id string. -/
theorem get_or_create_unknown_session_witness :
    ((fun _ : String => (none : Option ℕ)) "not-a-uuid" = none
      ∨ ∃ u, (fun _ : String => (none : Option ℕ)) "not-a-uuid" = some u
          ∧ ([] : List ChatSession).find? (fun s => s.id == u) = none)
    ∧ (get_or_create [] (fun _ => none) 5 "what is discussed?" 3 (some "not-a-uuid")).1.id
        = 5 :=
  ⟨Or.inl rfl,
    (get_or_create_unknown_session [] (fun _ => none) 5 "what is discussed?" 3
      "not-a-uuid" (Or.inl rfl)).1⟩

end YoutubeRag
